import Mathlib

/-!
Shallow embedding of the Screeps bot sources (src/src/creep.rs, src/src/lib.rs,
src/src/tower.rs, src/src/storage.rs, src/src/roles/hauler.rs) together with
theorems settling the claims of the specification.

Modelling conventions:
* machine integers (u32, i32, usize) become Nat, or Int where the source reads
  a signed value (get_free_capacity returns i32);
* a Rust panic (unwrap on None, try_into().expect) becomes Except.error;
* the per-tick host world (object resolution, room.find queries, the outcome
  codes of verbs issued this tick) is a record of query answers, frozen for the
  tick exactly as the game freezes its snapshot;
* thread-local HashMap registries become association lists with mapGet,
  mapRemove and mapInsert.
-/

set_option maxRecDepth 8000

namespace Screeps

/-- ObjectId values: lightweight ids meant to be re-resolved each tick. -/
abbrev ObjId := Nat

/-- Room positions. -/
structure Pos where
  x : Int
  y : Int
deriving DecidableEq

/-- Position::is_near_to — Chebyshev distance at most 1. -/
def Pos.isNearTo (a b : Pos) : Bool :=
  (a.x - b.x).natAbs ≤ 1 && (a.y - b.y).natAbs ≤ 1

/-- Position::get_range_to — Chebyshev distance. -/
def Pos.getRangeTo (a b : Pos) : Nat :=
  max (a.x - b.x).natAbs (a.y - b.y).natAbs

/-- A store of energy: used amount and total capacity. -/
structure Store where
  used : Nat
  cap : Nat
deriving DecidableEq

/-- Store::get_used_capacity(Some(Energy)) — returns u32. -/
def Store.getUsedCapacity (s : Store) : Nat := s.used

/-- Store::get_free_capacity(Some(Energy)) — returns i32. -/
def Store.getFreeCapacity (s : Store) : Int := (s.cap : Int) - (s.used : Int)

/-- Store::get_capacity(Some(Energy)) — returns u32. -/
def Store.getCapacity (s : Store) : Nat := s.cap

/-- screeps::ReturnCode, restricted to the values the sources branch on. -/
inductive ReturnCode
  | Ok
  | NotInRange
  | Full
  | Tired
  | NotEnough
  | InvalidTarget
  | Other
deriving DecidableEq

/-- screeps::StructureType, restricted to the values the sources branch on. -/
inductive StructureType
  | spawn
  | extension
  | road
  | wall
  | controller
  | tower
  | storage
  | container
  | other
deriving DecidableEq

/-- A resolved energy source. -/
structure SourceS where
  id : ObjId
  pos : Pos
deriving DecidableEq

/-- A resolved room controller. -/
structure ControllerS where
  id : ObjId
  pos : Pos
deriving DecidableEq

/-- A resolved spawn. -/
structure SpawnS where
  id : ObjId
  pos : Pos
  store : Store
deriving DecidableEq

/-- A room structure as the sources see it through StructureObject,
as_attackable (hits, hits_max, the attackable flag itself) and as_has_store. -/
structure StructS where
  id : ObjId
  pos : Pos
  stype : StructureType
  hits : Nat
  hitsMax : Nat
  store : Store
  attackable : Bool
deriving DecidableEq

/-- A construction site (held live by the sources, hence carried by value). -/
structure SiteS where
  id : ObjId
  pos : Pos
  stype : StructureType
deriving DecidableEq

/-- A hostile creep. -/
structure HostileS where
  hname : String
deriving DecidableEq

/-- A dropped resource. -/
structure ResourceS where
  id : ObjId
  pos : Pos
deriving DecidableEq

/-- HashMap::get, on the association-list model of the registries. -/
def mapGet {κ ν : Type} [DecidableEq κ] : List (κ × ν) → κ → Option ν
  | [], _ => none
  | p :: rest, k => if p.1 = k then some p.2 else mapGet rest k

/-- HashMap::remove, on the association-list model of the registries. -/
def mapRemove {κ ν : Type} [DecidableEq κ] (m : List (κ × ν)) (k : κ) : List (κ × ν) :=
  m.filter (fun p => decide (p.1 ≠ k))

/-- HashMap::insert, on the association-list model of the registries. -/
def mapInsert {κ ν : Type} [DecidableEq κ] (m : List (κ × ν)) (k : κ) (v : ν) :
    List (κ × ν) :=
  (k, v) :: mapRemove m k

end Screeps

namespace CreepRs

open Screeps

/-- The creep state read by src/src/creep.rs: name, spawning flag, position and
store, all frozen for the tick. -/
structure CreepS where
  name : String
  spawning : Bool
  pos : Pos
  store : Store
deriving DecidableEq

/-- The StructureObject payloads the Harvester arm stores and matches on
(spawn, extension, or something else). -/
inductive DepositObj
  | spawnObj (s : SpawnS)
  | extObj (e : StructS)
  | otherObj
deriving DecidableEq

/-- CreepTarget as used by src/src/creep.rs. Payloads follow the Rust types:
ObjectId for UpgradeController / Harvest / DepositSpawn / RepairRoad /
RepairWall, live objects for UpgradeConstructionSite (ConstructionSite) and
DepositExtension (StructureExtension). -/
inductive CreepTarget
  | upgradeController (id : ObjId)
  | upgradeConstructionSite (site : SiteS)
  | harvest (id : ObjId)
  | depositSpawn (id : ObjId)
  | depositExtension (ext : StructS)
  | repairRoad (id : ObjId)
  | repairWall (id : ObjId)
  | harvester (src : Option ObjId) (obj : Option DepositObj)
deriving DecidableEq

/-- The creep-target registry (thread-local HashMap<String, CreepTarget>). -/
abbrev Registry := List (String × CreepTarget)

/-- The per-tick host world as queried by run_creep: resolution of stored ids,
the room.find answers, the random index drawn this tick, and the outcome code
the host returns for each verb issued this tick. -/
structure World where
  resolveController : ObjId → Option ControllerS
  resolveSource : ObjId → Option SourceS
  resolveSpawn : ObjId → Option SpawnS
  resolveRoad : ObjId → Option StructS
  resolveWall : ObjId → Option StructS
  structures : List StructS
  myStructures : List StructS
  mySpawns : List SpawnS
  activeSources : List SourceS
  constructionSites : List SiteS
  closestStructByPath : Option StructS
  closestSiteByPath : Option SiteS
  rndIdx : Nat
  upgradeResult : ReturnCode
  harvestResult : ReturnCode
  transferResult : ReturnCode
  buildResult : ReturnCode
  repairResult : ReturnCode
  moveResult : ReturnCode

/-- Creep::pick_random_energy_source — sources.get(rnd_source_idx(len)). -/
def pickRandomEnergySource (w : World) : Option ObjId :=
  (w.activeSources[w.rndIdx]?).map (fun s => s.id)

/-- Creep::get_value_to_transfer. The value starts at the creep used capacity;
the target free capacity is converted i32 → u32 (try_into().expect panics on a
negative value, modelled as Except.error) and clamps the value when smaller. -/
def getValueToTransfer (c : CreepS) (targetStore : Store) : Except String Nat :=
  let value := c.store.getUsedCapacity
  match targetStore.getFreeCapacity.toNat' with
  | none => Except.error "could not convert i32 to u32"
  | some targetFree => Except.ok (if targetFree < value then targetFree else value)

/-- Creep::find_unfilled_extension — the first extension among MY_STRUCTURES
with free energy capacity. -/
def findUnfilledExtension (w : World) : Option StructS :=
  w.myStructures.find?
    (fun s => s.stype == StructureType.extension && decide (0 < s.store.getFreeCapacity))

/-- The fall-back shared by several run_creep arms: remove the entry, then lock
a random energy source when one can be picked. -/
def removeThenHarvestRandom (w : World) (name : String) (reg : Registry) : Registry :=
  let reg1 := mapRemove reg name
  match pickRandomEnergySource w with
  | some sid => mapInsert reg1 name (CreepTarget.harvest sid)
  | none => reg1

/-- Harvester::deposit — true when the transfer (in range) or the move (out of
range) returns Ok, false on Full / Tired / any other code. -/
def harvesterDeposit (w : World) (c : CreepS) (tpos : Pos) (tstore : Store) :
    Except String Bool :=
  if c.pos.isNearTo tpos then
    match getValueToTransfer c tstore with
    | Except.error e => Except.error e
    | Except.ok _ =>
      match w.transferResult with
      | ReturnCode.Ok => Except.ok true
      | ReturnCode.Full => Except.ok false
      | _ => Except.ok false
  else
    match w.moveResult with
    | ReturnCode.Ok => Except.ok true
    | ReturnCode.Tired => Except.ok false
    | _ => Except.ok false

/-- Harvester::find_deposit — the first spawn wins unless it reports zero free
capacity (the loop breaks), in which case the first unfilled extension. -/
def harvesterFindDeposit (w : World) : Option DepositObj :=
  match w.mySpawns with
  | s :: _ =>
    if s.store.getFreeCapacity == 0 then
      match findUnfilledExtension w with
      | some e => some (DepositObj.extObj e)
      | none => none
    else some (DepositObj.spawnObj s)
  | [] =>
    match findUnfilledExtension w with
    | some e => some (DepositObj.extObj e)
    | none => none

/-- The extension fall-through of the idle deposit branch of run_creep. -/
def idleDepositExtensionFallback (w : World) (c : CreepS) (name : String)
    (reg : Registry) : Registry :=
  if 0 < c.store.getUsedCapacity then
    match findUnfilledExtension w with
    | some e => mapInsert reg name (CreepTarget.depositExtension e)
    | none => reg
  else reg

/-- The idle deposit branch of run_creep (rnd in [1,5)): the loop over MY_SPAWNS
inserts DepositSpawn for the first spawn and returns, unless that spawn reports
zero free capacity (break), falling back to the first unfilled extension. -/
def idleDeposit (w : World) (c : CreepS) (name : String) (reg : Registry) : Registry :=
  match w.mySpawns with
  | s :: _ =>
    if s.store.getFreeCapacity == 0 then idleDepositExtensionFallback w c name reg
    else mapInsert reg name (CreepTarget.depositSpawn s.id)
  | [] => idleDepositExtensionFallback w c name reg

/-- The construction-site fall-through of the idle repair branch: first site of
extension type, else closest site by path. (Unreachable from the road stage
given its filter, embedded for fidelity.) -/
def idleBuild (w : World) (name : String) (reg : Registry) : Registry :=
  match w.constructionSites.find? (fun s => s.stype == StructureType.extension) with
  | some site => mapInsert reg name (CreepTarget.upgradeConstructionSite site)
  | none =>
    match w.closestSiteByPath with
    | some site => mapInsert reg name (CreepTarget.upgradeConstructionSite site)
    | none => reg

/-- The wall stage of the idle repair branch: the closest structure by path,
kept by Option::filter only when it is a wall with hits above one third of
hits_max. (The road stage predicate makes this stage dead code; embedded for
fidelity.) -/
def idleRepairWall (w : World) (name : String) (reg : Registry) : Registry :=
  match w.closestStructByPath.filter
      (fun r => r.stype == StructureType.wall && decide (r.hitsMax / 3 < r.hits)) with
  | none => reg
  | some o =>
    match o.stype with
    | StructureType.wall => mapInsert reg name (CreepTarget.repairWall o.id)
    | _ => idleBuild w name reg

/-- The idle repair/build branch of run_creep (5 ≤ rnd). find_closest_by_path
returns at most one structure and Option::filter applies the road predicate
(type Road and hits above one third of hits_max; the closure unwraps
as_attackable, always present for a road) to that single candidate; when the
candidate fails the predicate the whole branch returns with no target. -/
def idleRepairOrBuild (w : World) (name : String) (reg : Registry) : Registry :=
  match w.closestStructByPath.filter
      (fun r => r.stype == StructureType.road && decide (r.hitsMax / 3 < r.hits)) with
  | none => reg
  | some o =>
    match o.stype with
    | StructureType.road => mapInsert reg name (CreepTarget.repairRoad o.id)
    | _ => idleRepairWall w name reg

/-- Creep::run_creep — one executor step for one creep, src/src/creep.rs lines
111-492. Returns the updated registry, or Except.error when the source panics
(the resolve().unwrap() calls of the RepairRoad and RepairWall arms, and the
i32 → u32 conversions inside get_value_to_transfer). -/
def runCreep (w : World) (c : CreepS) (reg : Registry) : Except String Registry :=
  let name := c.name
  if c.spawning then Except.ok reg else
  match mapGet reg name with
  | some target =>
    match target with
    | CreepTarget.upgradeController cid =>
      if 0 < c.store.getUsedCapacity then
        match w.resolveController cid with
        | some _ =>
          if w.upgradeResult == ReturnCode.NotInRange then Except.ok reg
          else if w.upgradeResult != ReturnCode.Ok then Except.ok (mapRemove reg name)
          else Except.ok reg
        | none => Except.ok reg
      else Except.ok (removeThenHarvestRandom w name reg)
    | CreepTarget.harvest sid =>
      if 0 < c.store.getFreeCapacity then
        match w.resolveSource sid with
        | some source =>
          if c.pos.isNearTo source.pos then Except.ok reg
          else Except.ok reg
        | none => Except.ok reg
      else Except.ok (mapRemove reg name)
    | CreepTarget.depositSpawn sid =>
      if 0 < c.store.getUsedCapacity then
        match w.resolveSpawn sid with
        | some spawn =>
          if c.pos.isNearTo spawn.pos then
            match getValueToTransfer c spawn.store with
            | Except.error e => Except.error e
            | Except.ok _ =>
              if w.transferResult == ReturnCode.Full then Except.ok (mapRemove reg name)
              else if w.transferResult != ReturnCode.Ok then Except.ok (mapRemove reg name)
              else Except.ok reg
          else Except.ok reg
        | none => Except.ok reg
      else Except.ok (mapRemove reg name)
    | CreepTarget.depositExtension ext =>
      if 0 < c.store.getUsedCapacity then
        if c.pos.isNearTo ext.pos then
          match getValueToTransfer c ext.store with
          | Except.error e => Except.error e
          | Except.ok _ =>
            match w.transferResult with
            | ReturnCode.Ok =>
              let reg1 := mapRemove reg name
              if 0 < c.store.getUsedCapacity then
                match findUnfilledExtension w with
                | some e2 => Except.ok (mapInsert reg1 name (CreepTarget.depositExtension e2))
                | none => Except.ok reg1
              else Except.ok reg1
            | ReturnCode.Full => Except.ok (mapRemove reg name)
            | _ => Except.ok reg
        else Except.ok reg
      else Except.ok (mapRemove reg name)
    | CreepTarget.upgradeConstructionSite _ =>
      if 0 < c.store.getUsedCapacity then
        if w.buildResult == ReturnCode.NotInRange then Except.ok reg
        else if w.buildResult != ReturnCode.Ok then Except.ok (mapRemove reg name)
        else Except.ok reg
      else Except.ok (removeThenHarvestRandom w name reg)
    | CreepTarget.repairRoad rid =>
      if 0 < c.store.getUsedCapacity then
        match w.resolveRoad rid with
        | none => Except.error "called unwrap on a None value"
        | some target =>
          let reg1 := if target.hits == target.hitsMax then mapRemove reg name else reg
          if w.repairResult == ReturnCode.NotInRange then Except.ok reg1
          else if w.repairResult != ReturnCode.Ok then Except.ok (mapRemove reg1 name)
          else Except.ok reg1
      else Except.ok (removeThenHarvestRandom w name reg)
    | CreepTarget.repairWall wid =>
      if 0 < c.store.getUsedCapacity then
        match w.resolveWall wid with
        | none => Except.error "called unwrap on a None value"
        | some target =>
          let reg1 := if target.hits == target.hitsMax then mapRemove reg name else reg
          if w.repairResult == ReturnCode.NotInRange then Except.ok reg1
          else if w.repairResult != ReturnCode.Ok then Except.ok (mapRemove reg1 name)
          else Except.ok reg1
      else Except.ok (removeThenHarvestRandom w name reg)
    | CreepTarget.harvester srcOpt objOpt =>
      if 0 < c.store.getFreeCapacity then
        match srcOpt with
        | none =>
          match pickRandomEnergySource w with
          | some sid => Except.ok (mapInsert reg name (CreepTarget.harvester (some sid) none))
          | none => Except.ok reg
        | some sid =>
          match w.resolveSource sid with
          | some _ => Except.ok reg
          | none => Except.ok reg
      else
        match objOpt with
        | none =>
          match harvesterFindDeposit w with
          | some d => Except.ok (mapInsert reg name (CreepTarget.harvester none (some d)))
          | none => Except.ok reg
        | some obj =>
          match obj with
          | DepositObj.extObj e =>
            match harvesterDeposit w c e.pos e.store with
            | Except.error msg => Except.error msg
            | Except.ok true => Except.ok reg
            | Except.ok false => Except.ok (mapInsert reg name (CreepTarget.harvester none none))
          | DepositObj.spawnObj s =>
            match harvesterDeposit w c s.pos s.store with
            | Except.error msg => Except.error msg
            | Except.ok true => Except.ok reg
            | Except.ok false => Except.ok (mapInsert reg name (CreepTarget.harvester none none))
          | DepositObj.otherObj => Except.ok reg
  | none =>
    if 0 < c.store.getUsedCapacity then
      if w.rndIdx < 1 then
        match w.structures.find? (fun s => s.stype == StructureType.controller) with
        | some ctrl => Except.ok (mapInsert reg name (CreepTarget.upgradeController ctrl.id))
        | none => Except.ok reg
      else if w.rndIdx < 5 then Except.ok (idleDeposit w c name reg)
      else Except.ok (idleRepairOrBuild w name reg)
    else
      match pickRandomEnergySource w with
      | some sid => Except.ok (mapInsert reg name (CreepTarget.harvest sid))
      | none => Except.ok reg

end CreepRs

namespace TowerRs

open Screeps

/-- TowerTarget from src/src/storage.rs lines 30-34: Attack holds a live
Box of dyn Attackable (the hostile creep object itself), Repair holds an
ObjectId of a Structure. The Heal variant is commented out in storage.rs, so
the dead Heal arm of Tower::run is not represented. -/
inductive TowerTarget
  | attack (hostile : HostileS)
  | repair (id : ObjId)
deriving DecidableEq

/-- True when the variant payload is an ObjectId; false when it is a live game
object held across ticks (Attack stores Box of dyn Attackable). -/
def TowerTarget.embedsOnlyId : TowerTarget → Bool
  | TowerTarget.attack _ => false
  | TowerTarget.repair _ => true

/-- The tower-target registry, keyed by tower position. -/
abbrev TowerReg := List (Pos × TowerTarget)

/-- The tower state read by Tower::run. -/
structure TowerS where
  pos : Pos
  store : Store
deriving DecidableEq

/-- The per-tick host world as queried by Tower::run. -/
structure World where
  resolveStructure : ObjId → Option StructS
  structures : List StructS
  repairResult : ReturnCode
  attackResult : ReturnCode

/-- The filter chain of the repair-target selection in Tower::run: attackable
structures, not the controller, with hits strictly below one third of
hits_max. -/
def repairCandidates (structures : List StructS) : List StructS :=
  ((structures.filter (fun o => o.attackable)).filter
      (fun o => !(o.stype == StructureType.controller))).filter
    (fun o => decide (o.hits < o.hitsMax / 3))

/-- The reduce closure of Tower::run: keep the accumulator unless the next
candidate is attackable and has strictly fewer hits. -/
def fewerHp (fewerHpObj nextObj : StructS) : StructS :=
  if nextObj.attackable then
    if fewerHpObj.attackable then
      if nextObj.hits < fewerHpObj.hits then nextObj else fewerHpObj
    else fewerHpObj
  else fewerHpObj

/-- Iterator::reduce with the fewerHp closure. -/
def reduceFewerHp : List StructS → Option StructS
  | [] => none
  | x :: xs => some (xs.foldl fewerHp x)

/-- Tower::run — one step for one tower, src/src/tower.rs lines 35-124. -/
def run (w : World) (t : TowerS) (m : TowerReg) (hostiles : List HostileS) : TowerReg :=
  match mapGet m t.pos with
  | some (TowerTarget.repair sid) =>
    match w.resolveStructure sid with
    | some obj =>
      let m1 := if obj.hits == obj.hitsMax then mapRemove m t.pos else m
      if w.repairResult != ReturnCode.Ok then mapRemove m1 t.pos else m1
    | none => mapRemove m t.pos
  | some (TowerTarget.attack _) =>
    if w.attackResult != ReturnCode.Ok then mapRemove m t.pos else m
  | none =>
    if 0 < hostiles.length then
      hostiles.foldl (fun acc h => mapInsert acc t.pos (TowerTarget.attack h)) m
    else
      if (t.store.getCapacity : Int) / 2 < t.store.getFreeCapacity then m
      else
        match reduceFewerHp (repairCandidates w.structures) with
        | some obj => mapInsert m t.pos (TowerTarget.repair obj.id)
        | none => m

end TowerRs

namespace LibRs

open Screeps

/-- CreepTarget from src/src/lib.rs lines 29-37. Payloads follow the Rust
types: ObjectId for UpgradeController, Upgrade, Harvest and DepositSpawn; live
objects for UpgradeConstructionSite (ConstructionSite) and DepositExtension
(StructureExtension). -/
inductive CreepTarget
  | upgradeController (id : ObjId)
  | upgrade (id : ObjId)
  | upgradeConstructionSite (site : SiteS)
  | harvest (id : ObjId)
  | depositExtension (ext : StructS)
  | depositSpawn (id : ObjId)
deriving DecidableEq

/-- True when the variant payload is an ObjectId (a lightweight id); false when
it is a live game object held across ticks. -/
def CreepTarget.embedsOnlyId : CreepTarget → Bool
  | CreepTarget.upgradeController _ => true
  | CreepTarget.upgrade _ => true
  | CreepTarget.upgradeConstructionSite _ => false
  | CreepTarget.harvest _ => true
  | CreepTarget.depositExtension _ => false
  | CreepTarget.depositSpawn _ => true

/-- The creep-target registry of lib.rs. -/
abbrev Registry := List (String × CreepTarget)

/-- The per-source counting loop of game_loop (lib.rs lines 61-68): for each
Harvest entry, entry(source_id).or_insert((1, creep_name)) followed by an
unconditional increment of the count — a freshly seen source therefore starts
at 2, and the stored name is that of the first creep encountered. -/
def countHarvestSources (reg : Registry) : List (ObjId × Nat × String) :=
  reg.foldl
    (fun acc p =>
      match p.2 with
      | CreepTarget.harvest sid =>
        if acc.any (fun e => e.1 == sid) then
          acc.map (fun e => if e.1 == sid then (e.1, e.2.1 + 1, e.2.2) else e)
        else acc ++ [(sid, 2, p.1)]
      | _ => acc)
    []

/-- The congestion correction pass of game_loop (lib.rs lines 71-93): for every
source counted above 7, for every active source in the room of the chosen creep
whose id differs from the crowded one, the chosen creep entry is removed and
re-inserted with CreepTarget::Harvest(*object_id) — the id of the crowded
source itself. The chosen creep is assumed to be alive and in a room, as the
source expects. -/
def correctionPass (activeSources : List SourceS) (reg : Registry) : Registry :=
  (countHarvestSources reg).foldl
    (fun r e =>
      if 7 < e.2.1 then
        activeSources.foldl
          (fun r2 src =>
            if src.id != e.1 then
              mapInsert (mapRemove r2 e.2.2) e.2.2 (CreepTarget.harvest e.1)
            else r2)
          r
      else r)
    reg

end LibRs

namespace StorageRs

open Screeps

/-- CreepTarget from src/src/storage.rs lines 19-28. Payloads follow the Rust
types: ObjectId for UpgradeController, Harvest and Repair; a live
ConstructionSite for UpgradeConstructionSite and a live Resource for Pickup;
Deposit() carries no reference at all. -/
inductive CreepTarget
  | upgradeController (id : ObjId)
  | upgradeConstructionSite (site : SiteS)
  | harvest (id : ObjId)
  | deposit
  | pickup (res : ResourceS)
  | repair (id : ObjId)
deriving DecidableEq

/-- True when the variant carries at most an ObjectId; false when it carries a
live game object held across ticks. -/
def CreepTarget.embedsOnlyId : CreepTarget → Bool
  | CreepTarget.upgradeController _ => true
  | CreepTarget.upgradeConstructionSite _ => false
  | CreepTarget.harvest _ => true
  | CreepTarget.deposit => true
  | CreepTarget.pickup _ => false
  | CreepTarget.repair _ => true

end StorageRs

namespace HaulerRs

open Screeps

/-- The hauler creep state read by src/src/roles/hauler.rs. -/
structure HaulerS where
  name : String
  pos : Pos
  store : Store
deriving DecidableEq

/-- Hauler::get_value_to_transfer (textually the same computation as
Creep::get_value_to_transfer). -/
def getValueToTransfer (c : HaulerS) (targetStore : Store) : Except String Nat :=
  let value := c.store.getUsedCapacity
  match targetStore.getFreeCapacity.toNat' with
  | none => Except.error "could not convert i32 to u32"
  | some targetFree => Except.ok (if targetFree < value then targetFree else value)

/-- Hauler::get_value_to_withdraw. The value starts at the creep free capacity
(i32 → u32, panic on negative modelled as Except.error); the target used
capacity clamps it when smaller. -/
def getValueToWithdraw (c : HaulerS) (targetStore : Store) : Except String Nat :=
  match c.store.getFreeCapacity.toNat' with
  | none => Except.error "could not convert i32 to u32"
  | some value =>
    let targetUsed := targetStore.getUsedCapacity
    Except.ok (if targetUsed < value then targetUsed else value)

/-- The StructureObject values find_closest_depositable wraps into a Deposit. -/
inductive StructureObjectH
  | spawnH (s : SpawnS)
  | extensionH (e : StructS)
  | towerH (t : StructS)
  | storageH (s : StructS)
deriving DecidableEq

/-- RoomObjectProperties::pos for the wrapped structure. -/
def StructureObjectH.position : StructureObjectH → Pos
  | StructureObjectH.spawnH s => s.pos
  | StructureObjectH.extensionH e => e.pos
  | StructureObjectH.towerH t => t.pos
  | StructureObjectH.storageH s => s.pos

/-- structure_type() == StructureType::Storage for the wrapped structure. -/
def StructureObjectH.isStorageType : StructureObjectH → Bool
  | StructureObjectH.storageH _ => true
  | _ => false

/-- roles/role.rs Deposit: the wrapped object, its position, the transfer
amount and the cached is_storage flag. -/
structure Deposit where
  obj : StructureObjectH
  position : Pos
  amount : Nat
  isStorage : Bool
deriving DecidableEq

/-- Deposit::new. -/
def Deposit.new (o : StructureObjectH) (amount : Nat) : Deposit :=
  { obj := o, position := o.position, amount := amount, isStorage := o.isStorageType }

/-- The reduce closure of Hauler::find_unfilled_extension: keep the closer of
the two by range to the creep. -/
def closerOf (origin : Pos) (closer next : StructS) : StructS :=
  if next.pos.getRangeTo origin < closer.pos.getRangeTo origin then next else closer

/-- Iterator::reduce with the closerOf closure. -/
def reduceCloser (origin : Pos) : List StructS → Option StructS
  | [] => none
  | x :: xs => some (xs.foldl (closerOf origin) x)

/-- Hauler::find_unfilled_extension — the nearest extension (by range to the
creep) among MY_STRUCTURES with free energy capacity. -/
def findUnfilledExtension (c : HaulerS) (myStructures : List StructS) : Option StructS :=
  reduceCloser c.pos
    ((myStructures.filter (fun s => s.stype == StructureType.extension)).filter
      (fun s => decide (0 < s.store.getFreeCapacity)))

/-- The room queries the hauler deposit flow makes. -/
structure RoomH where
  mySpawns : List SpawnS
  myStructures : List StructS
  storage : Option StructS
  towerAnswer : Option StructS

/-- Modelled from the spec: crate::creep::find_tower is called by
find_closest_depositable but is defined in a module that is not among the
given sources. Per the spec, the deposit flow may fall through to a tower
under population or hostile-presence thresholds with free capacity above a
minimum reserve; the net observable here is just an optional tower structure,
carried as a per-room answer. -/
def findTowerModel (r : RoomH) : Option StructS := r.towerAnswer

/-- Hauler::find_closest_depositable — hauler.rs lines 303-351. Its own doc
comment states the precedence: Spawn > extension > tower > storage. The spawn
is the last one among MY_SPAWNS with free energy capacity; the extension is
the nearest unfilled one; the amounts come from get_value_to_transfer, whose
i32 → u32 conversion can panic (Except.error). The danger flag is accepted and
ignored, as in the source. -/
def findClosestDepositable (c : HaulerS) (r : RoomH) (danger : Bool) :
    Except String (Option Deposit) :=
  let _ := danger
  match (r.mySpawns.filter (fun s => decide (0 < s.store.getFreeCapacity))).getLast? with
  | some s =>
    match getValueToTransfer c s.store with
    | Except.error e => Except.error e
    | Except.ok v => Except.ok (some (Deposit.new (StructureObjectH.spawnH s) v))
  | none =>
    match findUnfilledExtension c r.myStructures with
    | some e =>
      match getValueToTransfer c e.store with
      | Except.error er => Except.error er
      | Except.ok v => Except.ok (some (Deposit.new (StructureObjectH.extensionH e) v))
    | none =>
      match findTowerModel r with
      | some t =>
        match getValueToTransfer c t.store with
        | Except.error er => Except.error er
        | Except.ok v => Except.ok (some (Deposit.new (StructureObjectH.towerH t) v))
      | none =>
        match r.storage with
        | some s =>
          match getValueToTransfer c s.store with
          | Except.error er => Except.error er
          | Except.ok v => Except.ok (some (Deposit.new (StructureObjectH.storageH s) v))
        | none => Except.ok none

end HaulerRs

namespace Spec2Proof

open Screeps

/-- A host world answering every query negatively; concrete scenarios override
individual fields. -/
def emptyWorld : CreepRs.World where
  resolveController := fun _ => none
  resolveSource := fun _ => none
  resolveSpawn := fun _ => none
  resolveRoad := fun _ => none
  resolveWall := fun _ => none
  structures := []
  myStructures := []
  mySpawns := []
  activeSources := []
  constructionSites := []
  closestStructByPath := none
  closestSiteByPath := none
  rndIdx := 0
  upgradeResult := ReturnCode.Ok
  harvestResult := ReturnCode.Ok
  transferResult := ReturnCode.Ok
  buildResult := ReturnCode.Ok
  repairResult := ReturnCode.Ok
  moveResult := ReturnCode.Ok

/-- A creep with both used and free energy capacity. -/
def staleCreep : CreepRs.CreepS :=
  { name := "c", spawning := false, pos := ⟨0, 0⟩, store := { used := 10, cap := 50 } }

/-- Registry holding a Harvest task on source id 5 (which emptyWorld does not
resolve). -/
def staleHarvestReg : CreepRs.Registry := [("c", CreepRs.CreepTarget.harvest 5)]

/-- Registry holding a RepairRoad task on road id 9 (which emptyWorld does not
resolve). -/
def staleRoadReg : CreepRs.Registry := [("c", CreepRs.CreepTarget.repairRoad 9)]

/-- The crowded source of the congestion scenario. -/
def srcA : SourceS := { id := 1, pos := ⟨10, 10⟩ }

/-- The alternative active source of the congestion scenario. -/
def srcB : SourceS := { id := 2, pos := ⟨40, 40⟩ }

/-- Eight creeps all holding Harvest on source id 1. -/
def crowdedReg : LibRs.Registry :=
  [("c1", LibRs.CreepTarget.harvest 1), ("c2", LibRs.CreepTarget.harvest 1),
   ("c3", LibRs.CreepTarget.harvest 1), ("c4", LibRs.CreepTarget.harvest 1),
   ("c5", LibRs.CreepTarget.harvest 1), ("c6", LibRs.CreepTarget.harvest 1),
   ("c7", LibRs.CreepTarget.harvest 1), ("c8", LibRs.CreepTarget.harvest 1)]

/-- A full tower at position (5,5). -/
def towerOne : TowerRs.TowerS := { pos := ⟨5, 5⟩, store := { used := 1000, cap := 1000 } }

/-- A damaged road, the repair target of the tower scenario. -/
def repairTargetStruct : StructS :=
  { id := 7, pos := ⟨6, 6⟩, stype := StructureType.road, hits := 100, hitsMax := 5000,
    store := { used := 0, cap := 0 }, attackable := true }

/-- The tower world: resolves structure id 7 to the damaged road. -/
def towerWorld : TowerRs.World :=
  { resolveStructure := fun i => if i = 7 then some repairTargetStruct else none,
    structures := [], repairResult := ReturnCode.Ok, attackResult := ReturnCode.Ok }

/-- Tower-target map holding an active Repair target for the tower. -/
def towerRepairMap : TowerRs.TowerReg := [(⟨5, 5⟩, TowerRs.TowerTarget.repair 7)]

/-- A hostile creep present in the room. -/
def hostileOne : HostileS := { hname := "enemy" }

/-- An extension nearly full (free capacity 1), the first deposit target. -/
def extA : StructS :=
  { id := 11, pos := ⟨1, 0⟩, stype := StructureType.extension, hits := 10, hitsMax := 10,
    store := { used := 49, cap := 50 }, attackable := false }

/-- An empty extension, the chained deposit target. -/
def extB : StructS :=
  { id := 12, pos := ⟨8, 8⟩, stype := StructureType.extension, hits := 10, hitsMax := 10,
    store := { used := 0, cap := 50 }, attackable := false }

/-- World for the chained-deposit scenario: MY_STRUCTURES holds the empty
extension, transfer succeeds. -/
def chainWorld : CreepRs.World := { emptyWorld with myStructures := [extB] }

/-- A creep carrying 20 energy next to the nearly full extension. -/
def chainCreep : CreepRs.CreepS :=
  { name := "c", spawning := false, pos := ⟨0, 0⟩, store := { used := 20, cap := 50 } }

/-- Registry holding the deposit task on the nearly full extension. -/
def chainReg : CreepRs.Registry := [("c", CreepRs.CreepTarget.depositExtension extA)]

/-- A hauler carrying 50 energy. -/
def haulerSix : HaulerRs.HaulerS := { name := "h", pos := ⟨0, 0⟩, store := { used := 50, cap := 100 } }

/-- A spawn with 200 free energy capacity. -/
def spawnSix : SpawnS := { id := 3, pos := ⟨1, 1⟩, store := { used := 100, cap := 300 } }

/-- An empty (unfilled) extension. -/
def extSix : StructS :=
  { id := 4, pos := ⟨2, 2⟩, stype := StructureType.extension, hits := 10, hitsMax := 10,
    store := { used := 0, cap := 50 }, attackable := false }

/-- A tower with free energy capacity. -/
def towerSix : StructS :=
  { id := 5, pos := ⟨3, 3⟩, stype := StructureType.tower, hits := 3000, hitsMax := 3000,
    store := { used := 0, cap := 1000 }, attackable := true }

/-- A storage with free energy capacity. -/
def storageSix : StructS :=
  { id := 6, pos := ⟨4, 4⟩, stype := StructureType.storage, hits := 10000, hitsMax := 10000,
    store := { used := 0, cap := 100000 }, attackable := true }

/-- Room with both an unfilled extension and a spawn with free capacity. -/
def roomBoth : HaulerRs.RoomH :=
  { mySpawns := [spawnSix], myStructures := [extSix], storage := none, towerAnswer := none }

/-- Room with only the unfilled extension. -/
def roomExtOnly : HaulerRs.RoomH :=
  { mySpawns := [], myStructures := [extSix], storage := none, towerAnswer := none }

/-- Room with only the tower. -/
def roomTowerOnly : HaulerRs.RoomH :=
  { mySpawns := [], myStructures := [], storage := none, towerAnswer := some towerSix }

/-- Room with only the storage. -/
def roomStorageOnly : HaulerRs.RoomH :=
  { mySpawns := [], myStructures := [], storage := some storageSix, towerAnswer := none }

/-- A road at 50 of 60 hits — above one third of its maximum. -/
def roadHigh : StructS :=
  { id := 9, pos := ⟨3, 3⟩, stype := StructureType.road, hits := 50, hitsMax := 60,
    store := { used := 0, cap := 0 }, attackable := true }

/-- World whose closest structure by path is the healthy road, with an idle
random draw landing on the repair branch. -/
def roadWorld : CreepRs.World :=
  { emptyWorld with closestStructByPath := some roadHigh, rndIdx := 7 }

/-- A live extension value as stored inside a DepositExtension task. -/
def liveExt : StructS :=
  { id := 14, pos := ⟨2, 2⟩, stype := StructureType.extension, hits := 10, hitsMax := 10,
    store := { used := 0, cap := 50 }, attackable := false }

theorem mapGet_insert_self {κ ν : Type} [DecidableEq κ] (m : List (κ × ν)) (k : κ) (v : ν) :
    mapGet (mapInsert m k v) k = some v := by
  simp [mapGet, mapInsert]

theorem if_lt_eq_min (a b : Nat) : (if b < a then b else a) = min a b := by
  rw [Nat.min_def]
  split <;> split <;> omega

theorem mapGet_remove_self {κ ν : Type} [DecidableEq κ] (m : List (κ × ν)) (k : κ) :
    mapGet (mapRemove m k) k = none := by
  induction m with
  | nil => rfl
  | cons p rest ih =>
    by_cases h : p.1 = k
    · simpa [mapRemove, List.filter, h] using ih
    · simpa [mapRemove, List.filter, h, mapGet] using ih

/-- Int.toNat' yields some for a non-negative value. -/
theorem toNatPrime_of_nonneg {a : Int} (h : 0 ≤ a) : a.toNat' = some a.toNat := by
  cases a with
  | ofNat n => rfl
  | negSucc n => exact absurd h (by simp)

/-- After folding the hostile-insertion loop, the tower position maps to
Attack on one of the hostiles. -/
theorem towerAttackFold_get (l : List HostileS) (p : Pos) :
    ∀ m : TowerRs.TowerReg, l ≠ [] →
      ∃ h0, h0 ∈ l
        ∧ mapGet (l.foldl (fun acc h => mapInsert acc p (TowerRs.TowerTarget.attack h)) m) p
          = some (TowerRs.TowerTarget.attack h0) := by
  induction l with
  | nil => intro m hne; exact absurd rfl hne
  | cons a t ih =>
    intro m _
    cases t with
    | nil =>
      exact ⟨a, List.mem_singleton_self a, by simp [List.foldl, mapGet_insert_self]⟩
    | cons b t2 =>
      obtain ⟨h0, hmem, hg⟩ := ih (mapInsert m p (TowerRs.TowerTarget.attack a)) (by simp)
      exact ⟨h0, List.mem_cons_of_mem a hmem, hg⟩

/-- The fewerHp closure always returns one of its two arguments. -/
theorem fewerHp_eq_or (a b : StructS) :
    TowerRs.fewerHp a b = a ∨ TowerRs.fewerHp a b = b := by
  by_cases h1 : b.attackable = true <;> by_cases h2 : a.attackable = true <;>
    by_cases h3 : b.hits < a.hits <;> simp [TowerRs.fewerHp, h1, h2, h3]

/-- Folding fewerHp yields the start element or a list member. -/
theorem foldl_fewerHp_pick (xs : List StructS) :
    ∀ x : StructS, xs.foldl TowerRs.fewerHp x = x ∨ xs.foldl TowerRs.fewerHp x ∈ xs := by
  induction xs with
  | nil => intro x; exact Or.inl rfl
  | cons b t ih =>
    intro x
    rcases ih (TowerRs.fewerHp x b) with h | h
    · rcases fewerHp_eq_or x b with h2 | h2
      · exact Or.inl (by rw [List.foldl_cons, h, h2])
      · exact Or.inr (by rw [List.foldl_cons, h, h2]; exact List.mem_cons_self b t)
    · exact Or.inr (List.mem_cons_of_mem b h)

/-- Over attackable structures, folding fewerHp reaches the minimum hits. -/
theorem foldl_fewerHp_min (xs : List StructS) :
    ∀ x : StructS, x.attackable = true → (∀ y ∈ xs, y.attackable = true) →
      (xs.foldl TowerRs.fewerHp x).hits ≤ x.hits
        ∧ ∀ y ∈ xs, (xs.foldl TowerRs.fewerHp x).hits ≤ y.hits := by
  induction xs with
  | nil =>
    intro x _ _
    exact ⟨le_refl _, fun y hy => absurd hy (List.not_mem_nil y)⟩
  | cons b t ih =>
    intro x hx hxs
    have hb : b.attackable = true := hxs b (List.mem_cons_self b t)
    have hstep : TowerRs.fewerHp x b = if b.hits < x.hits then b else x := by
      simp [TowerRs.fewerHp, hb, hx]
    have hatt : (TowerRs.fewerHp x b).attackable = true := by
      rw [hstep]; split
      · exact hb
      · exact hx
    obtain ⟨ih1, ih2⟩ :=
      ih (TowerRs.fewerHp x b) hatt (fun y hy => hxs y (List.mem_cons_of_mem b hy))
    have hle_x : (TowerRs.fewerHp x b).hits ≤ x.hits := by rw [hstep]; split <;> omega
    have hle_b : (TowerRs.fewerHp x b).hits ≤ b.hits := by rw [hstep]; split <;> omega
    refine ⟨?_, ?_⟩
    · calc (List.foldl TowerRs.fewerHp (TowerRs.fewerHp x b) t).hits
          ≤ (TowerRs.fewerHp x b).hits := ih1
        _ ≤ x.hits := hle_x
    · intro y hy
      rcases List.mem_cons.mp hy with h | h
      · rw [h]
        exact le_trans ih1 hle_b
      · exact ih2 y h

/-- Claim C1 fails on the code: a Harvest task whose embedded source id fails
to resolve survives one executor step unchanged — the unit still holds the
task afterwards (the arm only logs a warning). -/
theorem c1_counterexample :
    emptyWorld.resolveSource 5 = none
      ∧ CreepRs.runCreep emptyWorld staleCreep staleHarvestReg = Except.ok staleHarvestReg
      ∧ mapGet staleHarvestReg "c" = some (CreepRs.CreepTarget.harvest 5) := by
  refine ⟨rfl, rfl, rfl⟩

/-- Claim C1 amended: when a Harvest task id fails to resolve (and the creep
has free capacity) one executor step leaves the registry unchanged — the task
is retained, not removed; when a RepairRoad task id fails to resolve (and the
creep carries energy) the step panics on resolve().unwrap() — a fatal error,
not a local recovery. -/
theorem c1_amended (w : CreepRs.World) (c : CreepRs.CreepS) (reg1 reg2 : CreepRs.Registry)
    (sid rid : ObjId) (hsp : c.spawning = false) :
    ((mapGet reg1 c.name = some (CreepRs.CreepTarget.harvest sid)) →
        0 < c.store.getFreeCapacity → w.resolveSource sid = none →
        CreepRs.runCreep w c reg1 = Except.ok reg1)
      ∧ ((mapGet reg2 c.name = some (CreepRs.CreepTarget.repairRoad rid)) →
        0 < c.store.getUsedCapacity → w.resolveRoad rid = none →
        CreepRs.runCreep w c reg2 = Except.error "called unwrap on a None value") := by
  constructor
  · intro hget hfree hres
    simp only [CreepRs.runCreep, hsp, hget, hres, if_pos hfree]
    simp
  · intro hget hused hres
    simp only [CreepRs.runCreep, hsp, hget, hres, if_pos hused]
    simp

/-- Witness for the amended C1, at source id 5 and road id 9 in a world that
resolves nothing. -/
theorem c1_amended_witness :
    CreepRs.runCreep emptyWorld staleCreep staleHarvestReg = Except.ok staleHarvestReg
      ∧ CreepRs.runCreep emptyWorld staleCreep staleRoadReg
          = Except.error "called unwrap on a None value" :=
  ⟨(c1_amended emptyWorld staleCreep staleHarvestReg staleRoadReg 5 9 rfl).1
      (by decide) (by decide) rfl,
   (c1_amended emptyWorld staleCreep staleHarvestReg staleRoadReg 5 9 rfl).2
      (by decide) (by decide) rfl⟩

/-- Claim C2 fails on the code: with eight creeps on source 1 and source 2
active in the same room, the correction pass triggers (a count exceeds 7) but
re-inserts Harvest on the crowded source itself, so afterwards all eight
creeps still reference source 1 and none references source 2. -/
theorem c2_congestion_pass_noop :
    ((LibRs.correctionPass [srcA, srcB] crowdedReg).countP
        (fun p => decide (p.2 = LibRs.CreepTarget.harvest 1))) = 8
      ∧ ((LibRs.correctionPass [srcA, srcB] crowdedReg).countP
        (fun p => decide (p.2 = LibRs.CreepTarget.harvest 2))) = 0
      ∧ (LibRs.countHarvestSources crowdedReg).any (fun e => decide (7 < e.2.1)) = true := by
  decide

/-- Claim C3 fails on the code: a tower holding an active Repair target keeps
it unchanged through a tick on which a hostile is present — the step does not
switch the target to Attack (hostiles are only consulted when the tower holds
no target). -/
theorem c3_counterexample :
    TowerRs.run towerWorld towerOne towerRepairMap [hostileOne] = towerRepairMap
      ∧ mapGet towerRepairMap towerOne.pos = some (TowerRs.TowerTarget.repair 7)
      ∧ TowerRs.TowerTarget.repair 7 ≠ TowerRs.TowerTarget.attack hostileOne := by
  decide

/-- Claim C3 amended: defense preemption applies only to a tower holding no
target — then a present hostile is acquired as Attack; a tower already holding
an active Repair target (resolvable, not at full hits, repair succeeding)
keeps it unchanged on that tick even with hostiles present. -/
theorem c3_amended (w : TowerRs.World) (t : TowerRs.TowerS) (m : TowerRs.TowerReg)
    (hostiles : List HostileS) (sid : ObjId) (obj : StructS) :
    ((mapGet m t.pos = none) → hostiles ≠ [] →
        ∃ h0, h0 ∈ hostiles ∧ mapGet (TowerRs.run w t m hostiles) t.pos
          = some (TowerRs.TowerTarget.attack h0))
      ∧ ((mapGet m t.pos = some (TowerRs.TowerTarget.repair sid)) →
        w.resolveStructure sid = some obj → obj.hits ≠ obj.hitsMax →
        w.repairResult = ReturnCode.Ok → TowerRs.run w t m hostiles = m) := by
  constructor
  · intro hnone hne
    have hlen : 0 < hostiles.length := List.length_pos.mpr hne
    simp only [TowerRs.run, hnone, if_pos hlen]
    exact towerAttackFold_get hostiles t.pos m hne
  · intro hget hres hhits hok
    have hbe : (obj.hits == obj.hitsMax) = false := beq_eq_false_iff_ne.mpr hhits
    simp only [TowerRs.run, hget, hres, hok, hbe]
    simp

/-- Witness for the amended C3: an idle tower acquires Attack on the hostile;
the repairing tower keeps its Repair target. -/
theorem c3_amended_witness :
    (∃ h0, h0 ∈ [hostileOne]
        ∧ mapGet (TowerRs.run towerWorld towerOne [] [hostileOne]) towerOne.pos
          = some (TowerRs.TowerTarget.attack h0))
      ∧ TowerRs.run towerWorld towerOne towerRepairMap [hostileOne] = towerRepairMap :=
  ⟨(c3_amended towerWorld towerOne [] [hostileOne] 7 repairTargetStruct).1 rfl (by decide),
   (c3_amended towerWorld towerOne towerRepairMap [hostileOne] 7 repairTargetStruct).2
      (by decide) (by decide) (by decide) rfl⟩

/-- Claim C4: for every creep store and every target store with non-negative
free capacity, get_value_to_transfer (both the Creep version in creep.rs and
the Hauler version in hauler.rs) returns exactly
min(carried, target free capacity), which exceeds neither input. -/
theorem c4_value_to_transfer_min (c : CreepRs.CreepS) (h : HaulerRs.HaulerS) (ts : Store)
    (hfree : 0 ≤ ts.getFreeCapacity) :
    CreepRs.getValueToTransfer c ts
        = Except.ok (min c.store.getUsedCapacity ts.getFreeCapacity.toNat)
      ∧ HaulerRs.getValueToTransfer h ts
        = Except.ok (min h.store.getUsedCapacity ts.getFreeCapacity.toNat)
      ∧ min c.store.getUsedCapacity ts.getFreeCapacity.toNat ≤ c.store.getUsedCapacity
      ∧ ((min c.store.getUsedCapacity ts.getFreeCapacity.toNat : Nat) : Int)
          ≤ ts.getFreeCapacity := by
  have htn : ts.getFreeCapacity.toNat' = some ts.getFreeCapacity.toNat := by
    cases hv : ts.getFreeCapacity with
    | ofNat n => rfl
    | negSucc n => rw [hv] at hfree; exact absurd hfree (by simp)
  refine ⟨?_, ?_, ?_, ?_⟩
  · simp only [CreepRs.getValueToTransfer, htn, if_lt_eq_min]
  · simp only [HaulerRs.getValueToTransfer, htn, if_lt_eq_min]
  · omega
  · have : (ts.getFreeCapacity.toNat : Int) = ts.getFreeCapacity := Int.toNat_of_nonneg hfree
    omega

/-- Witness for C4 at carried = 30, target free capacity = 12. -/
theorem c4_value_to_transfer_min_witness :
    CreepRs.getValueToTransfer ⟨"c", false, ⟨0, 0⟩, ⟨30, 50⟩⟩ ⟨88, 100⟩
        = Except.ok (min 30 (Store.getFreeCapacity ⟨88, 100⟩).toNat)
      ∧ HaulerRs.getValueToTransfer ⟨"h", ⟨0, 0⟩, ⟨30, 50⟩⟩ ⟨88, 100⟩
        = Except.ok (min 30 (Store.getFreeCapacity ⟨88, 100⟩).toNat)
      ∧ min 30 (Store.getFreeCapacity ⟨88, 100⟩).toNat ≤ 30
      ∧ ((min 30 (Store.getFreeCapacity ⟨88, 100⟩).toNat : Nat) : Int)
          ≤ Store.getFreeCapacity ⟨88, 100⟩ :=
  c4_value_to_transfer_min ⟨"c", false, ⟨0, 0⟩, ⟨30, 50⟩⟩ ⟨"h", ⟨0, 0⟩, ⟨30, 50⟩⟩ ⟨88, 100⟩
    (by decide)

/-- Claim C5: when the deposit-to-extension transfer succeeds and the creep
store still reads carried energy above zero, and some extension in the room
has free energy capacity, the same executor step removes the old deposit task
and inserts a new DepositExtension task on an unfilled extension — no idle
gap. -/
theorem c5_chained_deposit (w : CreepRs.World) (c : CreepRs.CreepS) (reg : CreepRs.Registry)
    (ext e : StructS) (hsp : c.spawning = false)
    (hget : mapGet reg c.name = some (CreepRs.CreepTarget.depositExtension ext))
    (hused : 0 < c.store.getUsedCapacity)
    (hnear : c.pos.isNearTo ext.pos = true)
    (hfree : 0 ≤ ext.store.getFreeCapacity)
    (hok : w.transferResult = ReturnCode.Ok)
    (hmem : e ∈ w.myStructures) (hext : e.stype = StructureType.extension)
    (hunfilled : 0 < e.store.getFreeCapacity) :
    ∃ e2, CreepRs.runCreep w c reg
        = Except.ok (mapInsert (mapRemove reg c.name) c.name
            (CreepRs.CreepTarget.depositExtension e2))
      ∧ mapGet (mapInsert (mapRemove reg c.name) c.name
            (CreepRs.CreepTarget.depositExtension e2)) c.name
          = some (CreepRs.CreepTarget.depositExtension e2)
      ∧ e2.stype = StructureType.extension ∧ 0 < e2.store.getFreeCapacity := by
  have hfind : ∃ e2, CreepRs.findUnfilledExtension w = some e2 := by
    cases hf : CreepRs.findUnfilledExtension w with
    | some e2 => exact ⟨e2, rfl⟩
    | none =>
      exfalso
      have hnone := List.find?_eq_none.mp hf e hmem
      simp [hext, hunfilled] at hnone
  obtain ⟨e2, hf⟩ := hfind
  have hf2 : w.myStructures.find?
      (fun s => s.stype == StructureType.extension && decide (0 < s.store.getFreeCapacity))
      = some e2 := hf
  have hp := List.find?_some hf2
  rw [Bool.and_eq_true] at hp
  have he2t : e2.stype = StructureType.extension := by
    have := hp.1
    simpa using this
  have he2f : 0 < e2.store.getFreeCapacity := by
    have := hp.2
    simpa using this
  have htn : ext.store.getFreeCapacity.toNat' = some ext.store.getFreeCapacity.toNat :=
    toNatPrime_of_nonneg hfree
  refine ⟨e2, ?_, mapGet_insert_self _ _ _, he2t, he2f⟩
  simp only [CreepRs.runCreep, hsp, hget, if_pos hused, hnear, CreepRs.getValueToTransfer,
    htn, hok, hf]
  simp

/-- Witness for C5: the creep chains from the nearly full extension to the
empty one within the same step. -/
theorem c5_chained_deposit_witness :
    ∃ e2, CreepRs.runCreep chainWorld chainCreep chainReg
        = Except.ok (mapInsert (mapRemove chainReg "c") "c"
            (CreepRs.CreepTarget.depositExtension e2))
      ∧ mapGet (mapInsert (mapRemove chainReg "c") "c"
            (CreepRs.CreepTarget.depositExtension e2)) "c"
          = some (CreepRs.CreepTarget.depositExtension e2)
      ∧ e2.stype = StructureType.extension ∧ 0 < e2.store.getFreeCapacity :=
  c5_chained_deposit chainWorld chainCreep chainReg extA extB rfl (by decide) (by decide)
    (by decide) (by decide) rfl (by decide) rfl (by decide)

/-- Claim C6 fails on the code: with both an unfilled extension and a spawn
with free capacity present, the hauler deposit flow resolves the spawn, not
the extension (the function doc comment itself states the precedence
Spawn > extension > tower > storage). -/
theorem c6_counterexample :
    HaulerRs.findClosestDepositable haulerSix roomBoth false
        = Except.ok (some (HaulerRs.Deposit.new (HaulerRs.StructureObjectH.spawnH spawnSix) 50))
      ∧ extSix ∈ roomBoth.myStructures
      ∧ extSix.stype = StructureType.extension
      ∧ 0 < extSix.store.getFreeCapacity
      ∧ 0 < spawnSix.store.getFreeCapacity := by
  refine ⟨rfl, by decide, rfl, by decide, by decide⟩

/-- Claim C6 amended: the deposit flow resolves targets by the fixed precedence
Spawn (last with free capacity) > Extension (nearest unfilled) > Tower >
Storage; in particular a Spawn with free capacity is chosen over an unfilled
Extension. The idle deposit branch of run_creep agrees: the first spawn, when
it has free capacity, is locked as DepositSpawn before any extension is
considered. -/
theorem c6_amended (c : HaulerRs.HaulerS) (r : HaulerRs.RoomH) (s : SpawnS) (e t st : StructS)
    (w : CreepRs.World) (cc : CreepRs.CreepS) (reg : CreepRs.Registry) (s2 : SpawnS)
    (rest : List SpawnS) :
    (((r.mySpawns.filter (fun s0 => decide (0 < s0.store.getFreeCapacity))).getLast?
          = some s) → 0 ≤ s.store.getFreeCapacity →
        ∃ v, HaulerRs.findClosestDepositable c r false
          = Except.ok (some (HaulerRs.Deposit.new (HaulerRs.StructureObjectH.spawnH s) v)))
      ∧ (((r.mySpawns.filter (fun s0 => decide (0 < s0.store.getFreeCapacity))).getLast?
          = none) → HaulerRs.findUnfilledExtension c r.myStructures = some e →
        0 ≤ e.store.getFreeCapacity →
        ∃ v, HaulerRs.findClosestDepositable c r false
          = Except.ok (some (HaulerRs.Deposit.new (HaulerRs.StructureObjectH.extensionH e) v)))
      ∧ (((r.mySpawns.filter (fun s0 => decide (0 < s0.store.getFreeCapacity))).getLast?
          = none) → HaulerRs.findUnfilledExtension c r.myStructures = none →
        r.towerAnswer = some t → 0 ≤ t.store.getFreeCapacity →
        ∃ v, HaulerRs.findClosestDepositable c r false
          = Except.ok (some (HaulerRs.Deposit.new (HaulerRs.StructureObjectH.towerH t) v)))
      ∧ (((r.mySpawns.filter (fun s0 => decide (0 < s0.store.getFreeCapacity))).getLast?
          = none) → HaulerRs.findUnfilledExtension c r.myStructures = none →
        r.towerAnswer = none → r.storage = some st → 0 ≤ st.store.getFreeCapacity →
        ∃ v, HaulerRs.findClosestDepositable c r false
          = Except.ok (some (HaulerRs.Deposit.new (HaulerRs.StructureObjectH.storageH st) v)))
      ∧ (cc.spawning = false → mapGet reg cc.name = none → 0 < cc.store.getUsedCapacity →
        ¬ w.rndIdx < 1 → w.rndIdx < 5 → w.mySpawns = s2 :: rest →
        ¬ s2.store.getFreeCapacity = 0 →
        CreepRs.runCreep w cc reg
          = Except.ok (mapInsert reg cc.name (CreepRs.CreepTarget.depositSpawn s2.id))) := by
  refine ⟨?_, ?_, ?_, ?_, ?_⟩
  · intro hlast hfree
    refine ⟨if s.store.getFreeCapacity.toNat < c.store.getUsedCapacity
        then s.store.getFreeCapacity.toNat else c.store.getUsedCapacity, ?_⟩
    simp only [HaulerRs.findClosestDepositable, hlast, HaulerRs.getValueToTransfer,
      toNatPrime_of_nonneg hfree]
  · intro hlast hext hfree
    refine ⟨if e.store.getFreeCapacity.toNat < c.store.getUsedCapacity
        then e.store.getFreeCapacity.toNat else c.store.getUsedCapacity, ?_⟩
    simp only [HaulerRs.findClosestDepositable, hlast, hext, HaulerRs.getValueToTransfer,
      toNatPrime_of_nonneg hfree]
  · intro hlast hext htow hfree
    refine ⟨if t.store.getFreeCapacity.toNat < c.store.getUsedCapacity
        then t.store.getFreeCapacity.toNat else c.store.getUsedCapacity, ?_⟩
    simp only [HaulerRs.findClosestDepositable, hlast, hext, HaulerRs.findTowerModel, htow,
      HaulerRs.getValueToTransfer, toNatPrime_of_nonneg hfree]
  · intro hlast hext htow hst hfree
    refine ⟨if st.store.getFreeCapacity.toNat < c.store.getUsedCapacity
        then st.store.getFreeCapacity.toNat else c.store.getUsedCapacity, ?_⟩
    simp only [HaulerRs.findClosestDepositable, hlast, hext, HaulerRs.findTowerModel, htow,
      hst, HaulerRs.getValueToTransfer, toNatPrime_of_nonneg hfree]
  · intro hsp hnone hused h1 h5 hspawns hne
    have hbe : (s2.store.getFreeCapacity == 0) = false := beq_eq_false_iff_ne.mpr hne
    simp only [CreepRs.runCreep, hsp, hnone, if_pos hused, if_neg h1, if_pos h5,
      CreepRs.idleDeposit, hspawns, hbe]
    simp

/-- Witness for the amended C6, across the four hauler rooms and the creep
idle branch. -/
theorem c6_amended_witness :
    (∃ v, HaulerRs.findClosestDepositable haulerSix roomBoth false
        = Except.ok (some (HaulerRs.Deposit.new
            (HaulerRs.StructureObjectH.spawnH spawnSix) v)))
      ∧ (∃ v, HaulerRs.findClosestDepositable haulerSix roomExtOnly false
        = Except.ok (some (HaulerRs.Deposit.new
            (HaulerRs.StructureObjectH.extensionH extSix) v)))
      ∧ (∃ v, HaulerRs.findClosestDepositable haulerSix roomTowerOnly false
        = Except.ok (some (HaulerRs.Deposit.new
            (HaulerRs.StructureObjectH.towerH towerSix) v)))
      ∧ (∃ v, HaulerRs.findClosestDepositable haulerSix roomStorageOnly false
        = Except.ok (some (HaulerRs.Deposit.new
            (HaulerRs.StructureObjectH.storageH storageSix) v)))
      ∧ CreepRs.runCreep { emptyWorld with rndIdx := 2, mySpawns := [spawnSix] } chainCreep []
          = Except.ok (mapInsert [] "c" (CreepRs.CreepTarget.depositSpawn spawnSix.id)) :=
  ⟨(c6_amended haulerSix roomBoth spawnSix extSix towerSix storageSix emptyWorld chainCreep []
      spawnSix []).1 (by decide) (by decide),
   (c6_amended haulerSix roomExtOnly spawnSix extSix towerSix storageSix emptyWorld chainCreep []
      spawnSix []).2.1 rfl (by decide) (by decide),
   (c6_amended haulerSix roomTowerOnly spawnSix extSix towerSix storageSix emptyWorld chainCreep []
      spawnSix []).2.2.1 rfl rfl rfl (by decide),
   (c6_amended haulerSix roomStorageOnly spawnSix extSix towerSix storageSix emptyWorld chainCreep []
      spawnSix []).2.2.2.1 rfl rfl rfl rfl (by decide),
   (c6_amended haulerSix roomBoth spawnSix extSix towerSix storageSix
      { emptyWorld with rndIdx := 2, mySpawns := [spawnSix] } chainCreep [] spawnSix []).2.2.2.2
      rfl rfl (by decide) (by decide) (by decide) rfl (by decide)⟩

/-- Claim C7 fails on the code: the unit repair policy locks a road whose hits
are NOT strictly below one third of its maximum hits (its filter demands the
opposite inequality). -/
theorem c7_counterexample :
    CreepRs.runCreep roadWorld chainCreep [] = Except.ok [("c", CreepRs.CreepTarget.repairRoad 9)]
      ∧ ¬ roadHigh.hits < roadHigh.hitsMax / 3
      ∧ roadHigh.hitsMax / 3 < roadHigh.hits := by
  refine ⟨rfl, by decide, by decide⟩

/-- Claim C7 amended: the tower repair policy considers only attackable,
non-controller structures with hits strictly below one third of hits_max and
selects one with the minimum hits among them; the unit repair policy instead
takes the single closest-by-path structure and locks it only when it is a road
with hits strictly ABOVE one third of hits_max (nearest, not lowest-hits, and
the opposite health window). -/
theorem c7_amended (structures : List StructS) (r0 : StructS)
    (w : CreepRs.World) (c : CreepRs.CreepS) (reg : CreepRs.Registry) (o : StructS) :
    ((TowerRs.reduceFewerHp (TowerRs.repairCandidates structures) = some r0) →
        r0.attackable = true ∧ r0.stype ≠ StructureType.controller
          ∧ r0.hits < r0.hitsMax / 3
          ∧ ∀ y ∈ TowerRs.repairCandidates structures, r0.hits ≤ y.hits)
      ∧ (c.spawning = false → mapGet reg c.name = none → 0 < c.store.getUsedCapacity →
        ¬ w.rndIdx < 1 → ¬ w.rndIdx < 5 →
        w.closestStructByPath = some o → o.stype = StructureType.road →
        o.hitsMax / 3 < o.hits →
        CreepRs.runCreep w c reg
          = Except.ok (mapInsert reg c.name (CreepRs.CreepTarget.repairRoad o.id))) := by
  constructor
  · intro hred
    cases hc : TowerRs.repairCandidates structures with
    | nil => rw [hc] at hred; exact absurd hred (by simp [TowerRs.reduceFewerHp])
    | cons x xs =>
      rw [hc] at hred
      have hr0 : r0 = xs.foldl TowerRs.fewerHp x := by
        have := hred
        simp only [TowerRs.reduceFewerHp, Option.some.injEq] at this
        exact this.symm
      have hmemc : ∀ y ∈ TowerRs.repairCandidates structures,
          y.attackable = true ∧ y.stype ≠ StructureType.controller
            ∧ y.hits < y.hitsMax / 3 := by
        intro y hy
        simp only [TowerRs.repairCandidates, List.mem_filter] at hy
        refine ⟨hy.1.1.2, ?_, ?_⟩
        · have := hy.1.2
          simpa using this
        · have := hy.2
          simpa using this
      have hx : x ∈ TowerRs.repairCandidates structures := by
        rw [hc]; exact List.mem_cons_self x xs
      have hxs : ∀ y ∈ xs, y ∈ TowerRs.repairCandidates structures := by
        intro y hy; rw [hc]; exact List.mem_cons_of_mem x hy
      have hr0mem : r0 ∈ TowerRs.repairCandidates structures := by
        rcases foldl_fewerHp_pick xs x with h | h
        · rw [hr0, h]; exact hx
        · rw [hr0]; exact hxs _ h
      obtain ⟨hmin1, hmin2⟩ := foldl_fewerHp_min xs x (hmemc x hx).1
        (fun y hy => (hmemc y (hxs y hy)).1)
      obtain ⟨ha, hnc, hh⟩ := hmemc r0 hr0mem
      refine ⟨ha, hnc, hh, ?_⟩
      intro y hy
      rcases List.mem_cons.mp hy with h | h
      · rw [h, hr0]; exact hmin1
      · rw [hr0]; exact hmin2 y h
  · intro hsp hnone hused h1 h5 hclosest hroad hhits
    have hdec : decide (o.hitsMax / 3 < o.hits) = true := by simpa using hhits
    simp only [CreepRs.runCreep, hsp, hnone, if_pos hused, if_neg h1, if_neg h5,
      CreepRs.idleRepairOrBuild, hclosest, Option.filter, hroad, hdec]
    simp
    rw [hroad]

/-- Witness for the amended C7: a room with two damaged walls (30 of 200 and
10 of 200 hits) where the tower selects the 10-hit one, and the unit locking
the healthy road. -/
theorem c7_amended_witness :
    (StructS.attackable ⟨21, ⟨7, 7⟩, StructureType.wall, 10, 200, ⟨0, 0⟩, true⟩ = true
        ∧ StructS.stype ⟨21, ⟨7, 7⟩, StructureType.wall, 10, 200, ⟨0, 0⟩, true⟩
            ≠ StructureType.controller
        ∧ StructS.hits ⟨21, ⟨7, 7⟩, StructureType.wall, 10, 200, ⟨0, 0⟩, true⟩
            < StructS.hitsMax ⟨21, ⟨7, 7⟩, StructureType.wall, 10, 200, ⟨0, 0⟩, true⟩ / 3
        ∧ ∀ y ∈ TowerRs.repairCandidates
            [⟨20, ⟨6, 6⟩, StructureType.wall, 30, 200, ⟨0, 0⟩, true⟩,
             ⟨21, ⟨7, 7⟩, StructureType.wall, 10, 200, ⟨0, 0⟩, true⟩],
          StructS.hits ⟨21, ⟨7, 7⟩, StructureType.wall, 10, 200, ⟨0, 0⟩, true⟩ ≤ y.hits)
      ∧ CreepRs.runCreep roadWorld chainCreep []
          = Except.ok (mapInsert [] "c" (CreepRs.CreepTarget.repairRoad roadHigh.id)) :=
  ⟨(c7_amended
      [⟨20, ⟨6, 6⟩, StructureType.wall, 30, 200, ⟨0, 0⟩, true⟩,
       ⟨21, ⟨7, 7⟩, StructureType.wall, 10, 200, ⟨0, 0⟩, true⟩]
      ⟨21, ⟨7, 7⟩, StructureType.wall, 10, 200, ⟨0, 0⟩, true⟩
      roadWorld chainCreep [] roadHigh).1 (by decide),
   (c7_amended [] roadHigh roadWorld chainCreep [] roadHigh).2 rfl rfl (by decide)
      (by decide) (by decide) rfl rfl (by decide)⟩

/-- Claim C8 fails on the code: DepositExtension (lib.rs) stores a live
StructureExtension object and TowerTarget::Attack stores a live boxed
attackable across ticks — not lightweight re-resolved ids. -/
theorem c8_counterexample :
    (LibRs.CreepTarget.depositExtension liveExt).embedsOnlyId = false
      ∧ (TowerRs.TowerTarget.attack hostileOne).embedsOnlyId = false := by
  exact ⟨rfl, rfl⟩

/-- Claim C8 amended: UpgradeController, Upgrade, Harvest, DepositSpawn
(lib.rs), UpgradeController, Harvest, Deposit, Repair (storage.rs) and
TowerTarget::Repair embed only lightweight ids; UpgradeConstructionSite and
DepositExtension (lib.rs), UpgradeConstructionSite and Pickup (storage.rs) and
TowerTarget::Attack embed live object handles held across ticks. -/
theorem c8_amended :
    (∀ t : LibRs.CreepTarget, t.embedsOnlyId = false
        ↔ ((∃ s, t = LibRs.CreepTarget.upgradeConstructionSite s)
          ∨ (∃ e, t = LibRs.CreepTarget.depositExtension e)))
      ∧ (∀ t : StorageRs.CreepTarget, t.embedsOnlyId = false
        ↔ ((∃ s, t = StorageRs.CreepTarget.upgradeConstructionSite s)
          ∨ (∃ r, t = StorageRs.CreepTarget.pickup r)))
      ∧ (∀ t : TowerRs.TowerTarget, t.embedsOnlyId = false
        ↔ (∃ h, t = TowerRs.TowerTarget.attack h)) := by
  refine ⟨?_, ?_, ?_⟩
  · intro t
    cases t <;> simp [LibRs.CreepTarget.embedsOnlyId]
  · intro t
    cases t <;> simp [StorageRs.CreepTarget.embedsOnlyId]
  · intro t
    cases t <;> simp [TowerRs.TowerTarget.embedsOnlyId]

/-- Claim C9: a tower holding no target, on a tick with no hostiles, whose
stored energy is strictly below half of its capacity, acquires no repair
target — its step leaves the tower-target map unchanged. -/
theorem c9_energy_guard (w : TowerRs.World) (t : TowerRs.TowerS) (m : TowerRs.TowerReg)
    (hnone : mapGet m t.pos = none) (hhalf : 2 * t.store.used < t.store.cap) :
    TowerRs.run w t m [] = m := by
  have hg : (t.store.getCapacity : Int) / 2 < t.store.getFreeCapacity := by
    simp only [Store.getCapacity, Store.getFreeCapacity]
    omega
  simp only [TowerRs.run, hnone, List.length_nil, lt_irrefl, if_false, if_pos hg]

/-- Witness for C9: a tower with 100 of 1000 energy and no target stays
untouched in an empty map. -/
theorem c9_energy_guard_witness :
    TowerRs.run towerWorld ⟨⟨5, 5⟩, ⟨100, 1000⟩⟩ [] [] = [] :=
  c9_energy_guard towerWorld ⟨⟨5, 5⟩, ⟨100, 1000⟩⟩ [] rfl (by decide)

/-- Claim C10: for every hauler store with non-negative free capacity and every
target store, get_value_to_withdraw returns exactly
min(creep free capacity, target used capacity), which exceeds neither input. -/
theorem c10_value_to_withdraw_min (c : HaulerRs.HaulerS) (ts : Store)
    (hfree : 0 ≤ c.store.getFreeCapacity) :
    HaulerRs.getValueToWithdraw c ts
        = Except.ok (min c.store.getFreeCapacity.toNat ts.getUsedCapacity)
      ∧ ((min c.store.getFreeCapacity.toNat ts.getUsedCapacity : Nat) : Int)
          ≤ c.store.getFreeCapacity
      ∧ min c.store.getFreeCapacity.toNat ts.getUsedCapacity ≤ ts.getUsedCapacity := by
  have htn : c.store.getFreeCapacity.toNat' = some c.store.getFreeCapacity.toNat := by
    cases hv : c.store.getFreeCapacity with
    | ofNat n => rfl
    | negSucc n => rw [hv] at hfree; exact absurd hfree (by simp)
  refine ⟨?_, ?_, ?_⟩
  · simp only [HaulerRs.getValueToWithdraw, htn, if_lt_eq_min]
  · have : (c.store.getFreeCapacity.toNat : Int) = c.store.getFreeCapacity :=
      Int.toNat_of_nonneg hfree
    omega
  · omega

/-- Witness for C10 at creep free capacity = 20, target used capacity = 7. -/
theorem c10_value_to_withdraw_min_witness :
    HaulerRs.getValueToWithdraw ⟨"h", ⟨0, 0⟩, ⟨30, 50⟩⟩ ⟨7, 100⟩
        = Except.ok (min (Store.getFreeCapacity ⟨30, 50⟩).toNat 7)
      ∧ ((min (Store.getFreeCapacity ⟨30, 50⟩).toNat 7 : Nat) : Int)
          ≤ Store.getFreeCapacity ⟨30, 50⟩
      ∧ min (Store.getFreeCapacity ⟨30, 50⟩).toNat 7 ≤ 7 :=
  c10_value_to_withdraw_min ⟨"h", ⟨0, 0⟩, ⟨30, 50⟩⟩ ⟨7, 100⟩ (by decide)

end Spec2Proof
